import Mathlib

/-!
Shallow embedding of the crypto ingestion service (Python sources under
`app/`): the websocket message handler (`app/services/websocket_service.py`),
the metrics registry (`app/utils/metrics.py`), the structured candle logger
(`app/utils/logging_utils.py`), the Kafka producer
(`app/utils/kafka_producer.py`), the health endpoint
(`app/services/health.py`) and the asyncio supervision glue (`app/main.py`).

Pure functions are translated to Lean functions; side effects (log emissions,
metric increments, publish submissions) are reified as elements of explicit
effect traces; Python exceptions are `Except` / `Option` values; dictionary
fields that may be absent are `Option` fields.
-/

namespace CryptoIngest

/-- The fields of the `Settings` object (`app/config.py`) that the candle
pipeline and the connection loop consult. -/
structure Settings where
  KAFKA_ENABLED : Bool
  KAFKA_TOPIC : String
  RECONNECT_DELAY : Nat
deriving DecidableEq, Repr

/-- One candle object of an inbound frame (`§6` feed protocol; accessed by
`on_message`, `log_candle_json` and the kafka-message construction). Each
field is `Option` because the corresponding dictionary key may be absent
(`candle['k']` raises `KeyError` when missing). The source field `open` is a
Lean keyword and is rendered `open_`. -/
structure Candle where
  product_id : Option String
  start : Option String
  open_ : Option String
  high : Option String
  low : Option String
  close : Option String
  volume : Option String
deriving DecidableEq, Repr

/-- One event of an inbound frame: `event['type']` and `event.get('candles', [])`. -/
structure Event where
  type : Option String
  candles : Option (List Candle)
deriving DecidableEq, Repr

/-- A decoded inbound frame: a JSON object that may or may not contain an
`events` list (`§3` RawEnvelope, `§6` feed protocol). -/
structure Message where
  events : Option (List Event)
deriving DecidableEq, Repr

/-- Decimal value of one character, when it is a digit. -/
def digitVal (c : Char) : Option Nat :=
  let n := c.toNat
  if 48 ≤ n && n ≤ 57 then some (n - 48) else none

/-- Accumulate a decimal numeral over a character list. -/
def decDigits : List Char → Nat → Option Nat
  | [], acc => some acc
  | c :: cs, acc =>
    match digitVal c with
    | some d => decDigits cs (acc * 10 + d)
    | none => none

/-- Python `int(s)` on the decimal-literal strings the feed delivers for
`candle['start']` (optional sign followed by digits; surrounding whitespace
never occurs in the feed values and is not modelled); `none` models the
`ValueError` raised on a non-integer string. -/
def pyInt (s : String) : Option Int :=
  match s.data with
  | [] => none
  | '-' :: [] => none
  | '-' :: cs => (decDigits cs 0).map (fun n => -(n : Int))
  | '+' :: [] => none
  | '+' :: cs => (decDigits cs 0).map (fun n => (n : Int))
  | cs => (decDigits cs 0).map (fun n => (n : Int))

/-- Models `datetime.fromtimestamp(t).isoformat()` as an injective rendering
of the unix-seconds value `t`; no claim depends on the calendar arithmetic
itself, only on the value being derived from `t`. -/
def fromtimestamp_isoformat (t : Int) : String :=
  "fromtimestamp(" ++ toString t ++ ").isoformat"

/-- The message dictionary built from one candle. `websocket_service.py`
lines 87-96 and `logging_utils.py` lines 41-50 build the identical dict:
`event_time, symbol, open_price, high_price, low_price, close_price, volume,
start_time`. The dict literal carries no `timestamp` key; `send_message`
adds one later, so the field is `Option` and is `none` at construction. -/
structure KafkaMessage where
  event_time : String
  symbol : String
  open_price : String
  high_price : String
  low_price : String
  close_price : String
  volume : String
  start_time : Int
  timestamp : Option String := none
deriving DecidableEq, Repr

/-- A Python exception escaping a dictionary access or an `int()` call. -/
inductive PyErr where
  | keyError (field : String)
  | valueError (detail : String)
deriving DecidableEq, Repr

/-- `candle[k]`: the value when the key is present, `KeyError` otherwise. -/
def getKey {α : Type} (v : Option α) (k : String) : Except PyErr α :=
  match v with
  | some x => Except.ok x
  | none => Except.error (PyErr.keyError k)

/-- Building the candle message dict, in source evaluation order:
`int(candle['start'])` is evaluated first (lines 88 / 39), then
`product_id`, `open`, `high`, `low`, `close`, `volume` in the order of the
dict literal. The first failing access determines the raised exception. -/
def buildCandleMessage (c : Candle) : Except PyErr KafkaMessage := do
  let s ← getKey c.start "start"
  let n ← match pyInt s with
    | some n => Except.ok n
    | none => Except.error (PyErr.valueError s)
  let pid ← getKey c.product_id "product_id"
  let o ← getKey c.open_ "open"
  let h ← getKey c.high "high"
  let l ← getKey c.low "low"
  let cl ← getKey c.close "close"
  let v ← getKey c.volume "volume"
  return { event_time := fromtimestamp_isoformat n, symbol := pid,
           open_price := o, high_price := h, low_price := l,
           close_price := cl, volume := v, start_time := n,
           timestamp := none }

/-- An observable side effect of the message handler. `logger.debug`
diagnostics inside `record_message` are not observables named by the spec
and are not modelled. -/
inductive Effect where
  /-- `logger.info(json.dumps(message))` in `log_candle_json` -/
  | logCandle (m : KafkaMessage)
  /-- `logger.error("Error formatting candle data: ...")` in `log_candle_json` -/
  | logFormatError
  /-- `asyncio.create_task(kafka_producer.send_message(topic, kafka_message))`:
  a publish submission -/
  | publish (topic : String) (m : KafkaMessage)
  /-- `metrics.record_message(symbol=..., processing_time=...)` -/
  | recordMessage (symbol : String)
  /-- `metrics.connection_errors.inc()` -/
  | connErrInc
  /-- `logger.error(...)` in one of the two `except` arms of `on_message` -/
  | logError (tag : String)
deriving DecidableEq, Repr

/-- `log_candle_json(candle, logger)` (`logging_utils.py` lines 36-55):
emits exactly one log line and never raises — the structured info line on
success, an error line when any field access or `int()` fails. -/
def log_candle_json (c : Candle) : Effect :=
  match buildCandleMessage c with
  | Except.ok m => Effect.logCandle m
  | Except.error _ => Effect.logFormatError

/-- The body of the candle loop (`websocket_service.py` lines 84-103) for one
candle: the emitted effects in order, and the exception (if any) escaping to
the outer handler of `on_message`. `log_candle_json` runs first and cannot
raise; when Kafka is enabled the kafka message is constructed (raising on a
bad candle) and submitted; finally `candle['product_id']` is evaluated for
`record_message` (raising when absent). -/
def processCandle (cfg : Settings) (c : Candle) : List Effect × Option PyErr :=
  let logEff := log_candle_json c
  if cfg.KAFKA_ENABLED then
    match buildCandleMessage c with
    | Except.error e => ([logEff], some e)
    | Except.ok m =>
      match c.product_id with
      | none => ([logEff, Effect.publish cfg.KAFKA_TOPIC m],
                 some (PyErr.keyError "product_id"))
      | some pid => ([logEff, Effect.publish cfg.KAFKA_TOPIC m,
                      Effect.recordMessage pid], none)
  else
    match c.product_id with
    | none => ([logEff], some (PyErr.keyError "product_id"))
    | some pid => ([logEff, Effect.recordMessage pid], none)

/-- The candle loop over one event's candle list: candles are dispatched in
order; the first exception aborts the rest of the list. -/
def processCandles (cfg : Settings) : List Candle → List Effect × Option PyErr
  | [] => ([], none)
  | c :: rest =>
    match processCandle cfg c with
    | (tr, some e) => (tr, some e)
    | (tr, none) =>
      match processCandles cfg rest with
      | (tr2, r) => (tr ++ tr2, r)

/-- `'type' in event and event['type'] in ['snapshot', 'update']`
(lines 81-82). -/
def eventIsCandleBatch (ev : Event) : Bool :=
  match ev.type with
  | some t => t = "snapshot" || t = "update"
  | none => false

/-- The event loop (lines 80-103): events whose type check fails are
skipped; an exception escaping a candle aborts the remaining events. -/
def processEvents (cfg : Settings) : List Event → List Effect × Option PyErr
  | [] => ([], none)
  | ev :: rest =>
    if eventIsCandleBatch ev then
      match processCandles cfg (ev.candles.getD []) with
      | (tr, some e) => (tr, some e)
      | (tr, none) =>
        match processEvents cfg rest with
        | (tr2, r) => (tr ++ tr2, r)
    else processEvents cfg rest

/-- `WebsocketService.on_message` (`websocket_service.py` lines 74-110).
The input is the decoded frame: `none` models a string for which
`json.loads` raises `JSONDecodeError`. Both `except` arms first increment
`connection_errors` and then log; neither re-raises, so the handler is a
total function into an effect trace. -/
def on_message (cfg : Settings) (input : Option Message) : List Effect :=
  match input with
  | none => [Effect.connErrInc, Effect.logError "json_decode"]
  | some msg =>
    match msg.events with
    | none => []
    | some evs =>
      match processEvents cfg evs with
      | (tr, none) => tr
      | (tr, some _) => tr ++ [Effect.connErrInc, Effect.logError "processing"]

/-- The metric series of `Metrics` (`app/utils/metrics.py`) touched by the
candle pipeline. The histogram is tracked by its observation count; the
per-symbol counter is an association list. -/
structure MetricsState where
  messages_processed : Nat
  connection_errors : Nat
  messages_by_symbol : List (String × Nat)
  time_observation_count : Nat
  last_message_timestamp : Int
deriving DecidableEq, Repr

/-- `messages_by_symbol.labels(symbol=symbol).inc()`. -/
def incSymbol (s : String) : List (String × Nat) → List (String × Nat)
  | [] => [(s, 1)]
  | (k, n) :: rest =>
    if k = s then (k, n + 1) :: rest else (k, n) :: incSymbol s rest

/-- `Metrics.record_message` (`metrics.py` lines 47-59): increments the total
counter and the per-symbol counter, observes the processing-time histogram,
and sets the last-seen gauge to the current time. Internal errors are caught
and logged, so the call never raises. -/
def record_message (st : MetricsState) (symbol : String) (now : Int) :
    MetricsState :=
  { st with
    messages_processed := st.messages_processed + 1
    messages_by_symbol := incSymbol symbol st.messages_by_symbol
    time_observation_count := st.time_observation_count + 1
    last_message_timestamp := now }

/-- Effect of one trace element on the metrics registry. -/
def applyEffect (now : Int) (st : MetricsState) : Effect → MetricsState
  | Effect.recordMessage sym => record_message st sym now
  | Effect.connErrInc => { st with connection_errors := st.connection_errors + 1 }
  | _ => st

/-- Replaying a trace against the metrics registry. -/
def applyTrace (now : Int) (st : MetricsState) (tr : List Effect) : MetricsState :=
  tr.foldl (applyEffect now) st

/-- Is the effect a candle log emission (info or formatting error)? -/
def isCandleLog : Effect → Bool
  | Effect.logCandle _ => true
  | Effect.logFormatError => true
  | _ => false

/-- Is the effect a metrics update for a record? -/
def isMetricsUpdate : Effect → Bool
  | Effect.recordMessage _ => true
  | _ => false

/-- Is the effect a publish submission? -/
def isPublish : Effect → Bool
  | Effect.publish _ _ => true
  | _ => false

/-- Is the effect a connection-error counter increment? -/
def isConnErrInc : Effect → Bool
  | Effect.connErrInc => true
  | _ => false

/-- A candle all of whose fields are present with an integer `start`: the
shape the feed protocol promises (`§6`). -/
def validCandle (c : Candle) : Bool :=
  (match c.start with
   | some s => (pyInt s).isSome
   | none => false)
  && c.product_id.isSome && c.open_.isSome && c.high.isSome
  && c.low.isSome && c.close.isSome && c.volume.isSome

/-- The candles of a frame's events that the handler iterates over: candle
lists of the events passing the type check, in frame order. -/
def frameCandles : List Event → List Candle
  | [] => []
  | ev :: rest =>
    (if eventIsCandleBatch ev then ev.candles.getD [] else []) ++ frameCandles rest

/-! ### Health endpoint (`app/services/health.py` lines 8-28)

Datetimes are unix seconds as `Int`; `timedelta(minutes=1)` is 60 s and
`timedelta(minutes=5)` is 300 s. The surrounding `try`/`except` (fail-open
to 200) only fires when reading the gauge or `fromtimestamp` raises, which
cannot happen for an integer gauge value, so the pure body is the model.
At boot, `main()` line 49 sets the gauge to the boot time, so
`last_msg_time` is the boot time until the first record arrives. -/

/-- `health_check`: status code and body as a function of the current time
and the value of the `last_message_timestamp` gauge. -/
def health_check (now last_msg_time : Int) : Nat × String :=
  let startup_grace_period := now - 300
  let is_healthy :=
    decide (now - last_msg_time < 60) || decide (startup_grace_period < last_msg_time)
  (if is_healthy then 200 else 503, if is_healthy then "healthy" else "unhealthy")

/-- Modelled from C2's words, for comparison with the source: 200 iff a
record was processed within the last minute or the process is within a
5-minute startup grace window since last boot (a boot-time input the source
function does not have). -/
def claimedHealthStatus (now last_msg_time boot : Int) : Nat :=
  if now - last_msg_time < 60 || now - boot < 300 then 200 else 503

/-! ### Connection establishment and the connection loop
(`app/services/websocket_service.py` lines 60-72 and 115-144) -/

/-- Outcome of one `WSClient(...).open()` attempt inside
`_establish_connection`. -/
inductive AttemptOutcome where
  /-- the handshake succeeds -/
  | success
  /-- `WSClientConnectionClosedException` is raised -/
  | connectionClosed
deriving DecidableEq, Repr

/-- Result of `_establish_connection`, counting `open()` calls made. -/
inductive EstablishResult where
  /-- connected after `attemptsUsed` attempts -/
  | connected (attemptsUsed : Nat)
  /-- the backoff decorator gave up and re-raised
  `WSClientConnectionClosedException` after `attemptsUsed` attempts -/
  | exhausted (attemptsUsed : Nat)
deriving DecidableEq, Repr

/-- The `@on_exception(expo, WSClientConnectionClosedException, max_tries=…)`
retry loop: attempt outcomes are indexed by attempt number, `start` attempts
have already been consumed, `fuel` tries remain. -/
def backoffRetry (outcomes : Nat → AttemptOutcome) (start : Nat) :
    Nat → EstablishResult
  | 0 => EstablishResult.exhausted start
  | fuel + 1 =>
    match outcomes start with
    | AttemptOutcome.success => EstablishResult.connected (start + 1)
    | AttemptOutcome.connectionClosed => backoffRetry outcomes (start + 1) fuel

/-- `_establish_connection` (lines 60-72): bounded exponential backoff with
`max_tries=5`; the delay values themselves do not affect the result and are
not modelled. -/
def _establish_connection (outcomes : Nat → AttemptOutcome) : EstablishResult :=
  backoffRetry outcomes 0 5

/-- What one iteration of the `while self._should_run` loop of
`connect_and_subscribe` runs into, for runs with no concurrent `stop()`. -/
inductive RoundEvent where
  /-- `_establish_connection` exhausted its 5 tries and re-raised -/
  | establishExhausted
  /-- the session runs until the shutdown event is observed set -/
  | runsUntilShutdown
  /-- `run_forever_with_exception_check` raises mid-session -/
  | sessionDrop
deriving DecidableEq, Repr

/-- Observable side effects of the connection loop. -/
inductive LoopEffect where
  /-- `time.sleep(self.config.RECONNECT_DELAY)` in the `except` arm -/
  | reconnectSleep (seconds : Nat)
  /-- the `finally: self._cleanup()` of the iteration -/
  | cleanupRun
deriving DecidableEq, Repr

/-- How the loop hands control back to its caller. -/
inductive LoopExit where
  /-- the modelled schedule of rounds ended with the loop still iterating -/
  | scheduleExhausted
  /-- `break` via the shutdown-event branch (lines 132-134) -/
  | shutdownBreak
  /-- the exhausted-backoff error propagates to the caller of
  `connect_and_subscribe`; the source never produces this value — it is in
  the type so that the claimed behaviour is expressible -/
  | raisedConnectionExhausted
deriving DecidableEq, Repr

/-- `connect_and_subscribe` (lines 115-144) over a finite schedule of
rounds, for runs where no concurrent `stop()` flips `_should_run` or the
shutdown event. Every exception of a round is caught by the `except` arm,
which logs, sleeps `RECONNECT_DELAY`, and lets the loop retry; the
`finally` arm runs `_cleanup` on every iteration. -/
def connect_and_subscribe (cfg : Settings) :
    List RoundEvent → List LoopEffect × LoopExit
  | [] => ([], LoopExit.scheduleExhausted)
  | r :: rest =>
    match r with
    | RoundEvent.establishExhausted =>
      match connect_and_subscribe cfg rest with
      | (tr, ex) =>
        (LoopEffect.reconnectSleep cfg.RECONNECT_DELAY ::
         LoopEffect.cleanupRun :: tr, ex)
    | RoundEvent.runsUntilShutdown =>
      ([LoopEffect.cleanupRun], LoopExit.shutdownBreak)
    | RoundEvent.sessionDrop =>
      match connect_and_subscribe cfg rest with
      | (tr, ex) =>
        (LoopEffect.reconnectSleep cfg.RECONNECT_DELAY ::
         LoopEffect.cleanupRun :: tr, ex)

/-- Modelled from C3's words, for comparison with the source: on
first-connect exhaustion the manager stops retrying and reports the
connection-exhausted error to its caller. -/
def claimedConnectBehavior (cfg : Settings) :
    List RoundEvent → List LoopEffect × LoopExit
  | [] => ([], LoopExit.scheduleExhausted)
  | RoundEvent.establishExhausted :: _ =>
    ([], LoopExit.raisedConnectionExhausted)
  | RoundEvent.runsUntilShutdown :: _ =>
    ([LoopEffect.cleanupRun], LoopExit.shutdownBreak)
  | RoundEvent.sessionDrop :: rest =>
    match claimedConnectBehavior cfg rest with
    | (tr, ex) =>
      (LoopEffect.reconnectSleep cfg.RECONNECT_DELAY ::
       LoopEffect.cleanupRun :: tr, ex)

/-! ### Kafka producer (`app/utils/kafka_producer.py`) and the event-loop
exception handler (`app/main.py` lines 28-31) -/

/-- The producer's own state: the `enabled` flag, whether `self.producer`
is not `None`, and `self._connected`. -/
structure ProducerState where
  enabled : Bool
  producer_present : Bool
  connected : Bool
deriving DecidableEq, Repr

/-- An exception raised by `send_message`. -/
inductive SendError where
  /-- `RuntimeError("Not connected to Kafka broker")` (line 56) -/
  | runtimeNotConnected
  /-- an exception from `send_and_wait`, logged then re-raised (lines 65-67) -/
  | sendFailed
deriving DecidableEq, Repr

/-- Observable effects on the publish path. -/
inductive ProducerEffect where
  /-- `logger.debug("Kafka publishing disabled, skipping message")` -/
  | debugSkipDisabled
  /-- `await self.producer.send_and_wait(topic, message)` reaching the wire -/
  | wireSend (topic : String) (m : KafkaMessage)
  /-- `logger.debug("Message sent to topic ...")` -/
  | debugSent (topic : String)
  /-- `logger.error("Failed to send message to Kafka: ...")` -/
  | logSendError
  /-- `logger.error("Caught exception: ...")` in `handle_exception` -/
  | logCaughtException
  /-- `metrics.connection_errors.inc()`: in the vocabulary so that "counted
  as an error" is expressible; no publish-path source line emits it -/
  | connectionErrorsInc
deriving DecidableEq, Repr

/-- `KafkaMessageProducer.send_message` (lines 49-67). `sendFails` models
`send_and_wait` raising; `now` models `datetime.utcnow().isoformat()`. -/
def send_message (st : ProducerState) (sendFails : Bool) (now : String)
    (topic : String) (message : KafkaMessage) :
    List ProducerEffect × Except SendError Unit :=
  if !st.enabled then ([ProducerEffect.debugSkipDisabled], Except.ok ())
  else if !st.connected || !st.producer_present then
    ([], Except.error SendError.runtimeNotConnected)
  else
    let message :=
      if message.timestamp = none then { message with timestamp := some now }
      else message
    if sendFails then
      ([ProducerEffect.logSendError], Except.error SendError.sendFailed)
    else
      ([ProducerEffect.wireSend topic message, ProducerEffect.debugSent topic],
       Except.ok ())

/-- `handle_exception` (`main.py` lines 28-31), the event-loop handler an
unhandled task exception reaches: logs the exception and schedules
`shutdown()`; the `Bool` records that shutdown was initiated. -/
def handle_exception : List ProducerEffect × Bool :=
  ([ProducerEffect.logCaughtException], true)

/-- The fate of one fire-and-forget publish task
(`asyncio.create_task(send_message ...)` at `websocket_service.py` line 98):
if `send_message` raises, the exception is unhandled in the task and the
event loop invokes `handle_exception`. Returns the effects and whether
process shutdown was initiated. -/
def firePublishTask (st : ProducerState) (sendFails : Bool) (now : String)
    (topic : String) (m : KafkaMessage) : List ProducerEffect × Bool :=
  match send_message st sendFails now topic m with
  | (effs, Except.ok _) => (effs, false)
  | (effs, Except.error _) =>
    match handle_exception with
    | (heffs, shut) => (effs ++ heffs, shut)

/-- Modelled from C5's words, for comparison with the source: a publish
failure is logged and counted as an error, and shutdown is never initiated. -/
def claimedPublishFailureBehavior : List ProducerEffect × Bool :=
  ([ProducerEffect.logSendError, ProducerEffect.connectionErrorsInc], false)

/-! ### Shutdown path (`websocket_service.py` lines 39-58 `stop`,
lines 146-154 `_cleanup`; `kafka_producer.py` lines 39-47 `disconnect`) -/

/-- The `WebsocketService` fields the shutdown path touches:
`_should_run`, `_shutdown_event`, `_client is not None`,
`_kafka_connected`, and the producer's state. -/
structure ServiceState where
  should_run : Bool
  shutdown_event : Bool
  client_present : Bool
  kafka_connected : Bool
  producer : ProducerState
deriving DecidableEq, Repr

/-- Observable effects on the shutdown path. -/
inductive ShutdownEffect where
  /-- `await self.producer.stop()` attempted -/
  | producerStopAttempt
  /-- `logger.error("Error disconnecting from Kafka: ...")` -/
  | logDisconnectError
  /-- `self._client.close()` attempted -/
  | socketCloseAttempt
  /-- `logger.error("Error during shutdown/cleanup: ...")` -/
  | logCloseError
deriving DecidableEq, Repr

/-- `KafkaMessageProducer.disconnect` (lines 39-47): a no-op when no
producer was built; otherwise attempts `stop()`, setting `_connected` to
false only when it succeeds; an exception is logged and swallowed. -/
def disconnect (stopFails : Bool) (p : ProducerState) :
    ProducerState × List ShutdownEffect :=
  if p.producer_present then
    if stopFails then
      (p, [ShutdownEffect.producerStopAttempt, ShutdownEffect.logDisconnectError])
    else
      ({ p with connected := false }, [ShutdownEffect.producerStopAttempt])
  else (p, [])

/-- `WebsocketService.stop` (lines 39-58): sets `_should_run := false` and
the shutdown event, disconnects the producer when `_kafka_connected`
(a flag `stop` itself never resets), then closes the client inside
`try`/`except`/`finally` — the close error is logged and swallowed and the
`finally` sets `_client = None` even when `close()` raised. `closeFails`
and `stopFails` model the respective calls raising. -/
def stop (closeFails stopFails : Bool) (s : ServiceState) :
    ServiceState × List ShutdownEffect :=
  let s1 : ServiceState := { s with should_run := false, shutdown_event := true }
  match (if s1.kafka_connected then disconnect stopFails s1.producer
         else (s1.producer, [])) with
  | (p, e1) =>
    let s2 : ServiceState := { s1 with producer := p }
    if s2.client_present then
      ({ s2 with client_present := false },
       e1 ++ (if closeFails then
                [ShutdownEffect.socketCloseAttempt, ShutdownEffect.logCloseError]
              else [ShutdownEffect.socketCloseAttempt]))
    else (s2, e1)

/-- `WebsocketService._cleanup` (lines 146-154): closes the client when
present, logging and swallowing a close error, and sets `_client = None`
in the `finally` even when `close()` raised. -/
def _cleanup (closeFails : Bool) (s : ServiceState) :
    ServiceState × List ShutdownEffect :=
  if s.client_present then
    ({ s with client_present := false },
     if closeFails then
       [ShutdownEffect.socketCloseAttempt, ShutdownEffect.logCloseError]
     else [ShutdownEffect.socketCloseAttempt])
  else (s, [])

/-- Is the effect a socket close attempt? -/
def isSocketCloseAttempt : ShutdownEffect → Bool
  | ShutdownEffect.socketCloseAttempt => true
  | _ => false

/-! ### Concrete fixtures (the scenario of spec §8: one update-type candle
for BTC-USD at start 1637001600, matching the repository's
`sample_candle_data` test fixture) -/

/-- The BTC-USD candle of the §8 scenario. -/
def candleBTC : Candle :=
  { product_id := some "BTC-USD", start := some "1637001600",
    open_ := some "60000.00", high := some "61000.00", low := some "59000.00",
    close := some "60500.00", volume := some "100.00" }

/-- Settings with broker integration enabled and the default topic. -/
def cfgK : Settings :=
  { KAFKA_ENABLED := true, KAFKA_TOPIC := "coinbase.candles",
    RECONNECT_DELAY := 20 }

/-- Settings with broker integration disabled. -/
def cfgNoK : Settings :=
  { KAFKA_ENABLED := false, KAFKA_TOPIC := "coinbase.candles",
    RECONNECT_DELAY := 20 }

/-- The message dict built from `candleBTC`. -/
def msgBTC : KafkaMessage :=
  { event_time := fromtimestamp_isoformat 1637001600, symbol := "BTC-USD",
    open_price := "60000.00", high_price := "61000.00", low_price := "59000.00",
    close_price := "60500.00", volume := "100.00", start_time := 1637001600,
    timestamp := none }

/-- A frame with one update-type event carrying `candleBTC`. -/
def frameBTC : Message :=
  { events := some [{ type := some "update", candles := some [candleBTC] }] }

/-! ### Shared lemmas about valid candles -/

/-- A valid candle builds its message dict and is dispatched as: structured
log, publish submission when Kafka is enabled, metrics update — in that
order, raising nothing. -/
theorem processCandle_valid (cfg : Settings) (c : Candle)
    (h : validCandle c = true) :
    ∃ pid m, c.product_id = some pid ∧ buildCandleMessage c = Except.ok m ∧
      m.symbol = pid ∧ m.timestamp = none ∧
      processCandle cfg c =
        (Effect.logCandle m ::
          (if cfg.KAFKA_ENABLED then [Effect.publish cfg.KAFKA_TOPIC m] else []) ++
          [Effect.recordMessage pid], none) := by
  obtain ⟨pid?, s?, o?, hi?, l?, cl?, v?⟩ := c
  cases s? with
  | none => simp [validCandle] at h
  | some s =>
    cases hn : pyInt s with
    | none => simp [validCandle, hn] at h
    | some n =>
      cases pid? with
      | none => simp [validCandle] at h
      | some pid =>
        cases o? with
        | none => simp [validCandle] at h
        | some o =>
          cases hi? with
          | none => simp [validCandle] at h
          | some hi =>
            cases l? with
            | none => simp [validCandle] at h
            | some l =>
              cases cl? with
              | none => simp [validCandle] at h
              | some cl =>
                cases v? with
                | none => simp [validCandle] at h
                | some v =>
                  have hbuild : buildCandleMessage
                      { product_id := some pid, start := some s, open_ := some o,
                        high := some hi, low := some l, close := some cl,
                        volume := some v } =
                      Except.ok
                        { event_time := fromtimestamp_isoformat n, symbol := pid,
                          open_price := o, high_price := hi, low_price := l,
                          close_price := cl, volume := v, start_time := n,
                          timestamp := none } := by
                    simp [buildCandleMessage, getKey, hn, bind, Except.bind,
                      pure, Except.pure]
                  refine ⟨pid,
                    { event_time := fromtimestamp_isoformat n, symbol := pid,
                      open_price := o, high_price := hi, low_price := l,
                      close_price := cl, volume := v, start_time := n,
                      timestamp := none }, rfl, hbuild, rfl, rfl, ?_⟩
                  cases hk : cfg.KAFKA_ENABLED <;>
                    simp [processCandle, log_candle_json, hbuild, hk]

/-- Over a list of valid candles the candle loop raises nothing and the
trace is the concatenation of the per-candle traces in list order. -/
theorem processCandles_all_valid (cfg : Settings) (cs : List Candle)
    (h : ∀ c ∈ cs, validCandle c = true) :
    processCandles cfg cs =
      (cs.flatMap (fun c => (processCandle cfg c).1), none) := by
  induction cs with
  | nil => simp [processCandles]
  | cons c rest ih =>
    obtain ⟨pid, m, _, _, _, _, hpc⟩ :=
      processCandle_valid cfg c (h c (by simp))
    have hrest := ih (fun x hx => h x (by simp [hx]))
    simp [processCandles, hpc, hrest]

/-- Over a frame all of whose candles are valid, the event loop raises
nothing and the trace is the concatenation of the per-candle traces in
frame order. -/
theorem processEvents_all_valid (cfg : Settings) (evs : List Event)
    (h : ∀ c ∈ frameCandles evs, validCandle c = true) :
    processEvents cfg evs =
      ((frameCandles evs).flatMap (fun c => (processCandle cfg c).1), none) := by
  induction evs with
  | nil => simp [processEvents, frameCandles]
  | cons ev rest ih =>
    by_cases hev : eventIsCandleBatch ev
    · have h1 : ∀ c ∈ ev.candles.getD [], validCandle c = true := by
        intro x hx
        exact h x (by simp [frameCandles, hev, hx])
      have h2 := ih (fun x hx => h x (by simp [frameCandles, hev, hx]))
      have hc1 := processCandles_all_valid cfg _ h1
      simp [processEvents, hev, hc1, h2, frameCandles]
    · have h2 := ih (fun x hx => h x (by simp [frameCandles, hev, hx]))
      simp [processEvents, hev, h2, frameCandles]

/-- No candle-loop trace contains a connection-error increment: that effect
is only emitted by the outer `except` arms of `on_message`. -/
theorem processCandle_no_connErr (cfg : Settings) (c : Candle) :
    (processCandle cfg c).1.countP isConnErrInc = 0 := by
  unfold processCandle
  cases hk : cfg.KAFKA_ENABLED <;>
    cases hb : buildCandleMessage c <;> cases hp : c.product_id <;>
      simp [log_candle_json, hb, hp, isConnErrInc]

/-- Lifting `processCandle_no_connErr` over a candle list (failing or not). -/
theorem processCandles_no_connErr (cfg : Settings) (cs : List Candle) :
    (processCandles cfg cs).1.countP isConnErrInc = 0 := by
  induction cs with
  | nil => simp [processCandles]
  | cons c rest ih =>
    have hc := processCandle_no_connErr cfg c
    rcases hpc : processCandle cfg c with ⟨tr, err⟩
    rw [hpc] at hc
    cases err with
    | some e => simpa [processCandles, hpc] using hc
    | none =>
      rcases hr : processCandles cfg rest with ⟨tr2, r⟩
      rw [hr] at ih
      have hc' : tr.countP isConnErrInc = 0 := hc
      have ih' : tr2.countP isConnErrInc = 0 := ih
      simp [processCandles, hpc, hr, List.countP_append, hc', ih']

/-- Lifting `processCandle_no_connErr` over an event list (failing or not). -/
theorem processEvents_no_connErr (cfg : Settings) (evs : List Event) :
    (processEvents cfg evs).1.countP isConnErrInc = 0 := by
  induction evs with
  | nil => simp [processEvents]
  | cons ev rest ih =>
    by_cases hev : eventIsCandleBatch ev
    · have hcs := processCandles_no_connErr cfg (ev.candles.getD [])
      rcases hpc : processCandles cfg (ev.candles.getD []) with ⟨tr, err⟩
      rw [hpc] at hcs
      cases err with
      | some e => simpa [processEvents, hev, hpc] using hcs
      | none =>
        rcases hr : processEvents cfg rest with ⟨tr2, r⟩
        rw [hr] at ih
        have hcs' : tr.countP isConnErrInc = 0 := hcs
        have ih' : tr2.countP isConnErrInc = 0 := ih
        simp [processEvents, hev, hpc, hr, List.countP_append, hcs', ih']
    · simpa [processEvents, hev] using ih

/-- A successfully processed candle prefix prepends its trace: the loop
continues into the rest of the list with the prefix trace in front. -/
theorem processCandles_append (cfg : Settings) (xs ys : List Candle)
    (t : List Effect) (hxs : processCandles cfg xs = (t, none)) :
    processCandles cfg (xs ++ ys) =
      (t ++ (processCandles cfg ys).1, (processCandles cfg ys).2) := by
  induction xs generalizing t with
  | nil =>
    simp [processCandles] at hxs
    simp [hxs]
  | cons c rest ih =>
    rcases hpc : processCandle cfg c with ⟨tr, err⟩
    cases err with
    | some e => simp [processCandles, hpc] at hxs
    | none =>
      rcases hr : processCandles cfg rest with ⟨tr2, r⟩
      rw [processCandles, hpc, hr] at hxs
      cases r with
      | some e => simp at hxs
      | none =>
        obtain ⟨rfl⟩ : tr ++ tr2 = t := by simpa using hxs
        have := ih tr2 hr
        simp [processCandles, hpc, this]

/-- A successfully processed event prefix prepends its trace: the event loop
continues into the remaining events with the prefix trace in front. -/
theorem processEvents_append (cfg : Settings) (pre rest : List Event)
    (t : List Effect) (hpre : processEvents cfg pre = (t, none)) :
    processEvents cfg (pre ++ rest) =
      (t ++ (processEvents cfg rest).1, (processEvents cfg rest).2) := by
  induction pre generalizing t with
  | nil =>
    simp [processEvents] at hpre
    simp [hpre]
  | cons ev pre' ih =>
    by_cases hev : eventIsCandleBatch ev
    · rcases hpc : processCandles cfg (ev.candles.getD []) with ⟨tr, err⟩
      cases err with
      | some e => simp [processEvents, hev, hpc] at hpre
      | none =>
        rcases hr : processEvents cfg pre' with ⟨tr2, r⟩
        rw [processEvents, if_pos hev, hpc, hr] at hpre
        cases r with
        | some e => simp at hpre
        | none =>
          obtain ⟨rfl⟩ : tr ++ tr2 = t := by simpa using hpre
          have := ih tr2 hr
          simp [processEvents, hev, hpc, this]
    · rw [processEvents, if_neg hev] at hpre
      have := ih t hpre
      simp [processEvents, hev, this]

/-! ### Further fixtures -/

/-- The event list of `frameBTC`. -/
def eventsBTC : List Event :=
  [{ type := some "update", candles := some [candleBTC] }]

/-- `candleBTC` with the `product_id` key absent. -/
def candleNoPid : Candle := { candleBTC with product_id := none }

/-- A snapshot event whose middle candle lacks `product_id`. -/
def evMid : Event :=
  { type := some "snapshot", candles := some [candleBTC, candleNoPid, candleBTC] }

/-- A producer that connected successfully. -/
def pOn : ProducerState :=
  { enabled := true, producer_present := true, connected := true }

/-- A producer that was built but is not connected. -/
def pNoConn : ProducerState :=
  { enabled := true, producer_present := true, connected := false }

/-- A disabled producer. -/
def pOff : ProducerState :=
  { enabled := false, producer_present := false, connected := false }

/-- A running service with a live socket and a connected producer. -/
def s0 : ServiceState :=
  { should_run := true, shutdown_event := false, client_present := true,
    kafka_connected := true, producer := pOn }

/-- Is the effect the `connection_errors` counter increment? -/
def isConnectionErrorsInc : ProducerEffect → Bool
  | ProducerEffect.connectionErrorsInc => true
  | _ => false

/-! ## Claims -/

/-- C1: for every inbound frame with an `events` list whose snapshot/update
candles are all valid, the handler's trace is the in-order concatenation of
the per-candle traces (synchronous dispatch in frame order), and each candle
contributes exactly one log emission, exactly one metrics update — replaying
its trace against the registry is exactly one `record_message`, which
increments the total counter and the per-symbol counter, observes the
histogram and sets the last-seen gauge — and exactly one publish submission
iff broker integration is enabled (hence at most one). -/
theorem c1_per_candle_dispatch (cfg : Settings) (evs : List Event)
    (h : ∀ c ∈ frameCandles evs, validCandle c = true) :
    on_message cfg (some { events := some evs }) =
      (frameCandles evs).flatMap (fun c => (processCandle cfg c).1) ∧
    ∀ c ∈ frameCandles evs, ∃ pid,
      c.product_id = some pid ∧
      ((processCandle cfg c).1.countP isCandleLog = 1 ∧
       (processCandle cfg c).1.countP isMetricsUpdate = 1 ∧
       (processCandle cfg c).1.countP isPublish =
         (if cfg.KAFKA_ENABLED then 1 else 0)) ∧
      ∀ now st, applyTrace now st (processCandle cfg c).1 =
        record_message st pid now := by
  constructor
  · have hev := processEvents_all_valid cfg evs h
    simp [on_message, hev]
  · intro c hc
    obtain ⟨pid, m, hpid, _, _, _, hpc⟩ := processCandle_valid cfg c (h c hc)
    refine ⟨pid, hpid, ?_, ?_⟩
    · rw [hpc]
      cases hk : cfg.KAFKA_ENABLED <;>
        simp [hk, isCandleLog, isMetricsUpdate, isPublish]
    · intro now st
      rw [hpc]
      cases hk : cfg.KAFKA_ENABLED <;> simp [hk, applyTrace, applyEffect]

/-- C1 witness: the §8 scenario frame, with broker integration enabled. -/
theorem c1_witness :
    (∀ c ∈ frameCandles eventsBTC, validCandle c = true) ∧
    (on_message cfgK (some { events := some eventsBTC }) =
      (frameCandles eventsBTC).flatMap (fun c => (processCandle cfgK c).1) ∧
    ∀ c ∈ frameCandles eventsBTC, ∃ pid,
      c.product_id = some pid ∧
      ((processCandle cfgK c).1.countP isCandleLog = 1 ∧
       (processCandle cfgK c).1.countP isMetricsUpdate = 1 ∧
       (processCandle cfgK c).1.countP isPublish =
         (if cfgK.KAFKA_ENABLED then 1 else 0)) ∧
      ∀ now st, applyTrace now st (processCandle cfgK c).1 =
        record_message st pid now) :=
  ⟨by decide, c1_per_candle_dispatch cfgK eventsBTC (by decide)⟩

/-- C2 counterexample: with the last-seen gauge at now minus 61 seconds the
source returns 200 "healthy" — the second disjunct of `health_check`
compares the gauge, not the boot time, so any gauge value newer than five
minutes is healthy — while the claim (grace window keyed to a boot 1000000
seconds in the past, hence expired) demands 503. -/
theorem c2_counterexample :
    health_check 1000000 (1000000 - 61) = (200, "healthy") ∧
    claimedHealthStatus 1000000 (1000000 - 61) 0 = 503 :=
  ⟨by decide, by decide⟩

/-- C2 amended: the health check returns 200 "healthy" iff the last-seen
timestamp is less than 5 minutes old (the one-minute disjunct is subsumed;
the startup grace window arises because the gauge is initialised to the boot
time), and 503 "unhealthy" otherwise; at now minus 59 seconds it returns
200, and at now minus 61 seconds it also returns 200 — 503 requires the
gauge to be at least 5 minutes old. -/
theorem c2_amended_health (now last : Int) :
    (health_check now last = (200, "healthy") ↔ now - last < 300) ∧
    (health_check now last = (503, "unhealthy") ↔ 300 ≤ now - last) ∧
    health_check now (now - 59) = (200, "healthy") ∧
    health_check now (now - 61) = (200, "healthy") ∧
    health_check now (now - 301) = (503, "unhealthy") := by
  have key : ∀ last' : Int, health_check now last' =
      if now - last' < 300 then (200, "healthy") else (503, "unhealthy") := by
    intro last'
    have hb : (decide (now - last' < 60) || decide (now - 300 < last')) =
        decide (now - last' < 300) := by
      rcases Int.lt_or_le (now - last') 300 with h | h
      · have h2 : now - 300 < last' := by omega
        simp [h, h2]
      · have h1 : ¬ (now - last' < 60) := by omega
        have h2 : ¬ (now - 300 < last') := by omega
        have h3 : ¬ (now - last' < 300) := by omega
        simp [h1, h2, h3]
    simp only [health_check]
    rw [hb]
    by_cases h : now - last' < 300 <;> simp [h]
  refine ⟨?_, ?_, ?_, ?_, ?_⟩
  · rw [key]
    by_cases h : now - last < 300 <;> simp [h]
  · rw [key]
    by_cases h : now - last < 300 <;> simp [h] <;> omega
  · rw [key]
    have h : now - (now - 59) < 300 := by omega
    simp [h]
  · rw [key]
    have h : now - (now - 61) < 300 := by omega
    simp [h]
  · rw [key]
    have h : ¬ (now - (now - 301) < 300) := by omega
    simp [h]

/-- C3 counterexample: two consecutive first-connect exhaustions are both
retried by `connect_and_subscribe` — it sleeps the fixed reconnect delay,
cleans up and loops, ending still running — whereas the claimed behaviour
reports the connection-exhausted error to the caller after the first. -/
theorem c3_counterexample :
    connect_and_subscribe cfgK
        [RoundEvent.establishExhausted, RoundEvent.establishExhausted] =
      ([LoopEffect.reconnectSleep 20, LoopEffect.cleanupRun,
        LoopEffect.reconnectSleep 20, LoopEffect.cleanupRun],
       LoopExit.scheduleExhausted) ∧
    claimedConnectBehavior cfgK
        [RoundEvent.establishExhausted, RoundEvent.establishExhausted] =
      ([], LoopExit.raisedConnectionExhausted) ∧
    LoopExit.scheduleExhausted ≠ LoopExit.raisedConnectionExhausted :=
  ⟨rfl, rfl, by decide⟩

/-- C3 amended: `_establish_connection` is bounded — with every attempt
failing it gives up as exhausted after exactly 5 tries (from any starting
attempt count) — but the exhausted error is caught inside
`connect_and_subscribe`, which logs it, sleeps the fixed reconnect delay,
cleans up and retries: for every n, a schedule of n consecutive
first-connect exhaustions yields n sleep-and-cleanup rounds with the loop
still running, and nothing is ever reported to the caller. -/
theorem c3_amended_retry (cfg : Settings) :
    _establish_connection (fun _ => AttemptOutcome.connectionClosed) =
      EstablishResult.exhausted 5 ∧
    (∀ k, backoffRetry (fun _ => AttemptOutcome.connectionClosed) k 5 =
      EstablishResult.exhausted (k + 5)) ∧
    ∀ n, connect_and_subscribe cfg
        (List.replicate n RoundEvent.establishExhausted) =
      ((List.replicate n [LoopEffect.reconnectSleep cfg.RECONNECT_DELAY,
        LoopEffect.cleanupRun]).flatten, LoopExit.scheduleExhausted) := by
  refine ⟨rfl, ?_, ?_⟩
  · intro k
    simp [backoffRetry]
  · intro n
    induction n with
    | zero => rfl
    | succ n ih =>
      simp [List.replicate_succ, connect_and_subscribe, ih]

/-- C4 counterexample: for the §8 candle with broker integration enabled the
dispatch trace is log emission (index 0), publish submission (index 1),
metrics update (index 2) — the metrics update does not precede the log
emission or the publish submission as the claim states. -/
theorem c4_counterexample :
    (processCandle cfgK candleBTC).1 =
      [Effect.logCandle msgBTC, Effect.publish "coinbase.candles" msgBTC,
       Effect.recordMessage "BTC-USD"] ∧
    ((processCandle cfgK candleBTC).1.findIdx isCandleLog = 0 ∧
     (processCandle cfgK candleBTC).1.findIdx isPublish = 1 ∧
     (processCandle cfgK candleBTC).1.findIdx isMetricsUpdate = 2) ∧
    ¬((processCandle cfgK candleBTC).1.findIdx isMetricsUpdate <
      (processCandle cfgK candleBTC).1.findIdx isCandleLog) ∧
    ¬((processCandle cfgK candleBTC).1.findIdx isMetricsUpdate <
      (processCandle cfgK candleBTC).1.findIdx isPublish) :=
  ⟨rfl, ⟨rfl, rfl, rfl⟩, by decide, by decide⟩

/-- C4 amended: for every successfully parsed candle record, the log
emission comes first, then the publish submission (when broker integration
is enabled), and the metrics update comes last. -/
theorem c4_amended_order (cfg : Settings) (c : Candle)
    (h : validCandle c = true) :
    ∃ pid m, c.product_id = some pid ∧
      (processCandle cfg c).1 =
        Effect.logCandle m ::
          (if cfg.KAFKA_ENABLED then [Effect.publish cfg.KAFKA_TOPIC m] else []) ++
          [Effect.recordMessage pid] ∧
      (processCandle cfg c).1.head? = some (Effect.logCandle m) ∧
      (processCandle cfg c).1.getLast? = some (Effect.recordMessage pid) := by
  obtain ⟨pid, m, hpid, _, _, _, hpc⟩ := processCandle_valid cfg c h
  refine ⟨pid, m, hpid, ?_, ?_, ?_⟩ <;> rw [hpc] <;>
    cases hk : cfg.KAFKA_ENABLED <;> simp [hk]

/-- C4 amended, witness at the §8 candle with broker integration enabled. -/
theorem c4_witness :
    validCandle candleBTC = true ∧
    (∃ pid m, candleBTC.product_id = some pid ∧
      (processCandle cfgK candleBTC).1 =
        Effect.logCandle m ::
          (if cfgK.KAFKA_ENABLED then [Effect.publish cfgK.KAFKA_TOPIC m] else []) ++
          [Effect.recordMessage pid] ∧
      (processCandle cfgK candleBTC).1.head? = some (Effect.logCandle m) ∧
      (processCandle cfgK candleBTC).1.getLast? = some (Effect.recordMessage pid)) :=
  ⟨by decide, c4_amended_order cfgK candleBTC (by decide)⟩

/-- C5 counterexample: with the producer connected and the wire send
failing, the fire-and-forget publish task's exception reaches the event-loop
handler, which logs it and initiates process shutdown, and no error counter
increment is ever emitted on the publish path — whereas the claimed
behaviour counts the failure and never initiates shutdown. -/
theorem c5_counterexample :
    firePublishTask pOn true "2024-01-01T00:00:00" "coinbase.candles" msgBTC =
      ([ProducerEffect.logSendError, ProducerEffect.logCaughtException], true) ∧
    (firePublishTask pOn true "2024-01-01T00:00:00"
      "coinbase.candles" msgBTC).1.countP isConnectionErrorsInc = 0 ∧
    claimedPublishFailureBehavior.2 = false ∧
    claimedPublishFailureBehavior.1.countP isConnectionErrorsInc = 1 :=
  ⟨rfl, rfl, rfl, rfl⟩

/-- C5 amended: a send failure is logged by the producer and re-raised; a
submission while not connected raises without a producer-side log; in both
failure cases the unhandled task exception reaches `handle_exception`, which
logs it and initiates process shutdown, and no error counter is incremented
— publish failures do escalate. A successful send (and a disabled producer)
initiates no shutdown. -/
theorem c5_amended_publish (topic now : String) (m : KafkaMessage) :
    firePublishTask pOn true now topic m =
      ([ProducerEffect.logSendError, ProducerEffect.logCaughtException], true) ∧
    firePublishTask pNoConn false now topic m =
      ([ProducerEffect.logCaughtException], true) ∧
    (firePublishTask pOn false now topic m).2 = false ∧
    firePublishTask pOff false now topic m =
      ([ProducerEffect.debugSkipDisabled], false) ∧
    (firePublishTask pOn true now topic m).1.countP isConnectionErrorsInc = 0 := by
  refine ⟨rfl, rfl, ?_, rfl, rfl⟩
  cases hm : m.timestamp <;> simp [firePublishTask, send_message, pOn, hm]

/-- C6: a frame that fails JSON decoding is handled without raising — the
error counter is incremented (once) and an error line logged, and the loop
is unaffected — while a frame lacking the `events` key produces no effects
at all: silently ignored, no error counted. -/
theorem c6_malformed_frames (cfg : Settings) :
    on_message cfg none = [Effect.connErrInc, Effect.logError "json_decode"] ∧
    (on_message cfg none).countP isConnErrInc = 1 ∧
    on_message cfg (some { events := none }) = [] ∧
    (on_message cfg (some { events := none })).countP isConnErrInc = 0 :=
  ⟨rfl, rfl, rfl, rfl⟩

/-- C7: every message built for the broker carries exactly the candle's
data — `event_time` derived from `start`, `symbol` from `product_id`, the
OHLCV price fields, and `start_time` as the integer unix seconds — with no
`timestamp` at submission; `send_message` auto-adds the `timestamp` on the
wire; and in the §8 scenario the submitted message has symbol "BTC-USD" and
start_time 1637001600. -/
theorem c7_publish_contract (c : Candle) (m : KafkaMessage)
    (h : buildCandleMessage c = Except.ok m) :
    (m.event_time = fromtimestamp_isoformat m.start_time ∧
     c.product_id = some m.symbol ∧
     c.start.bind pyInt = some m.start_time ∧
     c.open_ = some m.open_price ∧ c.high = some m.high_price ∧
     c.low = some m.low_price ∧ c.close = some m.close_price ∧
     c.volume = some m.volume ∧ m.timestamp = none) ∧
    (∀ now topic,
      send_message pOn false now topic m =
        ([ProducerEffect.wireSend topic { m with timestamp := some now },
          ProducerEffect.debugSent topic], Except.ok ())) ∧
    (processCandle cfgK candleBTC).1 =
      [Effect.logCandle msgBTC, Effect.publish "coinbase.candles" msgBTC,
       Effect.recordMessage "BTC-USD"] ∧
    msgBTC.symbol = "BTC-USD" ∧ msgBTC.start_time = 1637001600 := by
  obtain ⟨pid?, s?, o?, hi?, l?, cl?, v?⟩ := c
  cases s? with
  | none => simp [buildCandleMessage, getKey, bind, Except.bind] at h
  | some s =>
    cases hn : pyInt s with
    | none =>
      simp [buildCandleMessage, getKey, hn, bind, Except.bind] at h
    | some n =>
      cases pid? with
      | none => simp [buildCandleMessage, getKey, hn, bind, Except.bind] at h
      | some pid =>
        cases o? with
        | none => simp [buildCandleMessage, getKey, hn, bind, Except.bind] at h
        | some o =>
          cases hi? with
          | none => simp [buildCandleMessage, getKey, hn, bind, Except.bind] at h
          | some hi =>
            cases l? with
            | none => simp [buildCandleMessage, getKey, hn, bind, Except.bind] at h
            | some l =>
              cases cl? with
              | none => simp [buildCandleMessage, getKey, hn, bind, Except.bind] at h
              | some cl =>
                cases v? with
                | none =>
                  simp [buildCandleMessage, getKey, hn, bind, Except.bind] at h
                | some v =>
                  simp only [buildCandleMessage, getKey, hn, bind, Except.bind,
                    pure, Except.pure, Except.ok.injEq] at h
                  subst h
                  refine ⟨⟨rfl, rfl, by simp [hn], rfl, rfl, rfl, rfl, rfl, rfl⟩,
                    ?_, rfl, rfl, rfl⟩
                  intro now topic
                  simp [send_message, pOn]

/-- C7 witness at the §8 candle and its message. -/
theorem c7_witness :
    buildCandleMessage candleBTC = Except.ok msgBTC ∧
    ((msgBTC.event_time = fromtimestamp_isoformat msgBTC.start_time ∧
      candleBTC.product_id = some msgBTC.symbol ∧
      candleBTC.start.bind pyInt = some msgBTC.start_time ∧
      candleBTC.open_ = some msgBTC.open_price ∧
      candleBTC.high = some msgBTC.high_price ∧
      candleBTC.low = some msgBTC.low_price ∧
      candleBTC.close = some msgBTC.close_price ∧
      candleBTC.volume = some msgBTC.volume ∧ msgBTC.timestamp = none) ∧
    (∀ now topic,
      send_message pOn false now topic msgBTC =
        ([ProducerEffect.wireSend topic { msgBTC with timestamp := some now },
          ProducerEffect.debugSent topic], Except.ok ())) ∧
    (processCandle cfgK candleBTC).1 =
      [Effect.logCandle msgBTC, Effect.publish "coinbase.candles" msgBTC,
       Effect.recordMessage "BTC-USD"] ∧
    msgBTC.symbol = "BTC-USD" ∧ msgBTC.start_time = 1637001600) :=
  ⟨rfl, c7_publish_contract candleBTC msgBTC rfl⟩

/-- C8: in any reachable state (the producer is only connected when it was
built and the service recorded the connection), one `stop()` ends with the
shutdown signal set, the run flag cleared, the socket handle null and the
broker disconnected, and a second `stop()` reproduces exactly the same end
state, completing without error (the model's shutdown functions are total —
every internal failure is logged and swallowed). -/
theorem c8_stop_idempotent (s : ServiceState)
    (hpc : s.producer.connected = true → s.kafka_connected = true)
    (hpp : s.producer.connected = true → s.producer.producer_present = true) :
    ((stop false false s).1.should_run = false ∧
     (stop false false s).1.shutdown_event = true ∧
     (stop false false s).1.client_present = false ∧
     (stop false false s).1.producer.connected = false) ∧
    (stop false false (stop false false s).1).1 = (stop false false s).1 := by
  obtain ⟨sr, se, cp, kc, en, pp, pc⟩ := s
  cases kc <;> cases pp <;> cases pc <;> cases cp <;>
    simp_all [stop, disconnect]

/-- C8 witness at a running service with live socket and connected broker. -/
theorem c8_witness :
    (s0.producer.connected = true → s0.kafka_connected = true) ∧
    (((stop false false s0).1.should_run = false ∧
      (stop false false s0).1.shutdown_event = true ∧
      (stop false false s0).1.client_present = false ∧
      (stop false false s0).1.producer.connected = false) ∧
     (stop false false (stop false false s0).1).1 = (stop false false s0).1) :=
  ⟨fun _ => rfl, c8_stop_idempotent s0 (fun _ => rfl) (fun _ => rfl)⟩

/-- C9: shutdown-path failures are logged and swallowed — `stop` and
`_cleanup` always complete, leaving the socket handle null after every close
attempt, raising ones included (the failure case emits exactly the close
attempt and its error log; a failing `stop` emits both failure logs and
still finishes) — and a handle is never closed twice: after a `stop`, a
further `_cleanup` emits nothing and a second `stop` makes no close
attempt. -/
theorem c9_shutdown_swallow (s : ServiceState) (cf pf cf2 pf2 : Bool) :
    (stop cf pf s).1.client_present = false ∧
    (_cleanup cf s).1.client_present = false ∧
    (stop cf pf s).1.should_run = false ∧
    (stop cf pf s).1.shutdown_event = true ∧
    (_cleanup cf2 (stop cf pf s).1).2 = [] ∧
    (stop cf2 pf2 (stop cf pf s).1).2.countP isSocketCloseAttempt = 0 ∧
    (_cleanup true { s with client_present := true }).2 =
      [ShutdownEffect.socketCloseAttempt, ShutdownEffect.logCloseError] ∧
    (_cleanup true { s with client_present := true }).1.client_present = false ∧
    (stop true true
        { s with
          client_present := true
          kafka_connected := true
          producer := { s.producer with producer_present := true } }).2 =
      [ShutdownEffect.producerStopAttempt, ShutdownEffect.logDisconnectError,
       ShutdownEffect.socketCloseAttempt, ShutdownEffect.logCloseError] := by
  obtain ⟨sr, se, cp, kc, en, pp, pc⟩ := s
  cases kc <;> cases pp <;> cases pc <;> cases cp <;>
    cases cf <;> cases pf <;> cases cf2 <;> cases pf2 <;>
      simp_all [stop, _cleanup, disconnect, isSocketCloseAttempt]

/-- C10: when processing one candle anywhere in a frame raises — after any
number of earlier events completed without raising (`pre`) and any number of
earlier candles of the same event processed successfully (`cs1`) — the
remaining candles of the frame (`cs2` of the same event and every later
event in `post`) receive no log emission, metrics update or publish
submission: the handler's trace is exactly the completed prefix traces, the
failing candle's trace up to the raise, then one connection-error increment
and one error log; the counter is incremented exactly once for the whole
frame (no candle-loop trace ever contains an increment) and the handler
returns without raising. -/
theorem c10_frame_abort (cfg : Settings) (pre : List Event) (ev : Event)
    (post : List Event) (cs1 cs2 : List Candle) (c : Candle)
    (trPre tr1 tr : List Effect) (e : PyErr)
    (hpre : processEvents cfg pre = (trPre, none))
    (hev : eventIsCandleBatch ev = true)
    (hcands : ev.candles = some (cs1 ++ c :: cs2))
    (hcs1 : processCandles cfg cs1 = (tr1, none))
    (hc : processCandle cfg c = (tr, some e)) :
    on_message cfg (some { events := some (pre ++ ev :: post) }) =
      trPre ++ tr1 ++ tr ++ [Effect.connErrInc, Effect.logError "processing"] ∧
    (on_message cfg (some { events := some (pre ++ ev :: post) })).countP
      isConnErrInc = 1 := by
  have hctail : processCandles cfg (c :: cs2) = (tr, some e) := by
    simp [processCandles, hc]
  have h1 : processCandles cfg (cs1 ++ c :: cs2) = (tr1 ++ tr, some e) := by
    rw [processCandles_append cfg cs1 (c :: cs2) tr1 hcs1, hctail]
  have hev1 : processEvents cfg (ev :: post) = (tr1 ++ tr, some e) := by
    simp [processEvents, hev, hcands, h1]
  have hall : processEvents cfg (pre ++ ev :: post) =
      (trPre ++ (tr1 ++ tr), some e) := by
    rw [processEvents_append cfg pre (ev :: post) trPre hpre, hev1]
  have hmain : on_message cfg (some { events := some (pre ++ ev :: post) }) =
      trPre ++ tr1 ++ tr ++ [Effect.connErrInc, Effect.logError "processing"] := by
    simp [on_message, hall]
  refine ⟨hmain, ?_⟩
  rw [hmain]
  have z1 : trPre.countP isConnErrInc = 0 := by
    have hz := processEvents_no_connErr cfg pre
    rw [hpre] at hz
    exact hz
  have z2 : tr1.countP isConnErrInc = 0 := by
    have hz := processCandles_no_connErr cfg cs1
    rw [hcs1] at hz
    exact hz
  have z3 : tr.countP isConnErrInc = 0 := by
    have hz := processCandle_no_connErr cfg c
    rw [hc] at hz
    exact hz
  simp [List.countP_append, z1, z2, z3, isConnErrInc]

/-- C10 witness: a frame of three events — a successful update event, then a
snapshot event whose middle candle lacks `product_id` (broker disabled, so
`record_message`'s argument evaluation raises `KeyError` after the first
candle of that event already processed), then another update event. The
trace shows the two completed candles, the failing candle's error log, one
counter increment and one error log; the third candle of the snapshot event
and the whole last event are skipped. -/
theorem c10_witness :
    processEvents cfgNoK eventsBTC =
      ([Effect.logCandle msgBTC, Effect.recordMessage "BTC-USD"], none) ∧
    eventIsCandleBatch evMid = true ∧
    evMid.candles = some ([candleBTC] ++ candleNoPid :: [candleBTC]) ∧
    processCandles cfgNoK [candleBTC] =
      ([Effect.logCandle msgBTC, Effect.recordMessage "BTC-USD"], none) ∧
    processCandle cfgNoK candleNoPid =
      ([Effect.logFormatError], some (PyErr.keyError "product_id")) ∧
    (on_message cfgNoK (some { events := some (eventsBTC ++ evMid :: eventsBTC) }) =
      [Effect.logCandle msgBTC, Effect.recordMessage "BTC-USD"] ++
        [Effect.logCandle msgBTC, Effect.recordMessage "BTC-USD"] ++
        [Effect.logFormatError] ++
        [Effect.connErrInc, Effect.logError "processing"] ∧
     (on_message cfgNoK
        (some { events := some (eventsBTC ++ evMid :: eventsBTC) })).countP
       isConnErrInc = 1) :=
  ⟨rfl, rfl, rfl, rfl, rfl,
   c10_frame_abort cfgNoK eventsBTC evMid eventsBTC [candleBTC] [candleBTC]
     candleNoPid [Effect.logCandle msgBTC, Effect.recordMessage "BTC-USD"]
     [Effect.logCandle msgBTC, Effect.recordMessage "BTC-USD"]
     [Effect.logFormatError] (PyErr.keyError "product_id")
     rfl rfl rfl rfl rfl⟩

end CryptoIngest
